import Mathlib

/-!
Shallow embedding of the rook mon config logic
(`pkg/operator/ceph/cluster/mon/config.go`) and of the config
synthesis / driver gating logic exercised by
`pkg/daemon/ceph/config/config_test.go` and the operator driver update
path, together with proofs of the specification claims about them.

Go strings are `String`, Go `int` is `Int` (with the 64-bit clamp made
explicit where `strconv.Atoi` clamps), fallible Go calls return
`Except String`, and the Kubernetes client collaborators are modelled
as explicit oracle inputs.  Side effects on the external store are
collected as an explicit event trace.
-/

/-- Value of a list of decimal digit characters. -/
def digitsToNat (l : List Char) : Nat :=
  l.foldl (fun a c => a * 10 + (c.toNat - 48)) 0

/-- Leftmost non-overlapping split of a character list at a separator,
by structural recursion on fuel so concrete instances evaluate. -/
def splitOnCharsFuel (sep : List Char) : Nat → List Char → List (List Char)
  | _, [] => [[]]
  | 0, cs => [cs]
  | Nat.succ n, c :: rest =>
    if sep.isPrefixOf (c :: rest) && !sep.isEmpty then
      [] :: splitOnCharsFuel sep n (rest.drop (sep.length - 1))
    else
      match splitOnCharsFuel sep n rest with
      | [] => [[c]]
      | s :: ss => (c :: s) :: ss

/-- `strings.Split` (and Lean's `String.splitOn`): split at every
non-overlapping occurrence of `sep`, leftmost first. -/
def goSplitOn (s sep : String) : List String :=
  if sep = "" then [s]
  else (splitOnCharsFuel sep.toList s.toList.length s.toList).map String.mk

/-- Split a character list at every character matching `p`. -/
def splitPredChars (p : Char → Bool) : List Char → List (List Char)
  | [] => [[]]
  | c :: rest =>
    if p c then [] :: splitPredChars p rest
    else
      match splitPredChars p rest with
      | [] => [[c]]
      | s :: ss => (c :: s) :: ss

/-- `strings.TrimSpace`: drop whitespace on both ends. -/
def goTrim (s : String) : String :=
  String.mk (((s.toList.dropWhile Char.isWhitespace).reverse.dropWhile Char.isWhitespace).reverse)

/-- Whether `pre` is a prefix of `s`. -/
def strStartsWith (s pre : String) : Bool :=
  pre.toList.isPrefixOf s.toList

/-- Whether `suf` is a suffix of `s`. -/
def strEndsWith (s suf : String) : Bool :=
  suf.toList.reverse.isPrefixOf s.toList.reverse

/-- `strings.Join` / interleave a separator between list entries. -/
def goIntercalate (sep : String) : List String → String
  | [] => ""
  | [x] => x
  | x :: y :: rest => x ++ sep ++ goIntercalate sep (y :: rest)

/-- `strconv.Atoi` for a 64-bit Go `int`: result value together with an
ok flag (`false` mirrors a non-nil error).  On a syntax error Go
returns value `0`; on a range error it returns the clamped value. -/
def goAtoi (s : String) : Int × Bool :=
  let cs := s.toList
  let signDigits : Bool × List Char :=
    match cs with
    | '-' :: rest => (true, rest)
    | '+' :: rest => (false, rest)
    | _ => (false, cs)
  let neg := signDigits.1
  let ds := signDigits.2
  if ds.isEmpty || !ds.all Char.isDigit then (0, false)
  else
    let n : Int := Int.ofNat (digitsToNat ds)
    let v : Int := if neg then -n else n
    if v < -(2 ^ 63) then (-(2 ^ 63), false)
    else if (2 ^ 63 - 1 : Int) < v then (2 ^ 63 - 1, false)
    else (v, true)

/-- `strings.Fields`: split around whitespace, dropping empty fields. -/
def goFields (s : String) : List String :=
  ((splitPredChars Char.isWhitespace s.toList).map String.mk).filter (fun t => t ≠ "")

/-- `sys.Grep input pat`: the first line of `input` containing `pat`
(the pattern used by the source, `"key"`, has no regexp metacharacters,
so matching is substring containment); empty string when none. -/
def goGrep (input pat : String) : String :=
  match (goSplitOn input "\n").find? (fun l => 2 ≤ (goSplitOn l pat).length) with
  | some l => l
  | none => ""

/-- `strings.Replace s pat rep 1`: replace the first occurrence only. -/
def replaceOnce (s pat rep : String) : String :=
  match goSplitOn s pat with
  | [] => s
  | [x] => x
  | x :: y :: rest => x ++ rep ++ goIntercalate pat (y :: rest)

/-- A single-quote character as a string (used inside capability
argument strings passed to the key-generation tool). -/
def squote : String := String.mk [Char.ofNat 39]

/-! ### Constants

The string constants below are declared elsewhere in the repository
(the mon, csi and client packages); their exact values never influence
the claims, they only serve as distinct store keys. -/

def AppName : String := "rook-ceph-mon"
def EndpointConfigMapName : String := "rook-ceph-mon-endpoints"
def EndpointDataKey : String := "data"
def MaxMonIDKey : String := "maxMonId"
def MappingKey : String := "mapping"
def clusterSecretName : String := "cluster-name"
def fsidSecretName : String := "fsid"
def monSecretName : String := "mon-secret"
def AdminSecretName : String := "admin-secret"
def AdminUsername : String := "client.admin"
def OperatorCreds : String := "rook-ceph-operator-creds"
def CsiRBDNodeSecret : String := "rook-csi-rbd-node"
def CsiRBDProvisionerSecret : String := "rook-csi-rbd-provisioner"
def CsiCephFSNodeSecret : String := "rook-csi-cephfs-node"
def CsiCephFSProvisionerSecret : String := "rook-csi-cephfs-provisioner"

/-! ### Data model -/

/-- Decidable equality for `Except` outcomes (used to evaluate the
model on concrete inputs). -/
instance {ε α : Type} [DecidableEq ε] [DecidableEq α] : DecidableEq (Except ε α) := fun a b =>
  match a, b with
  | Except.error e1, Except.error e2 =>
    if h : e1 = e2 then isTrue (congrArg Except.error h)
    else isFalse (fun hh => h (Except.error.inj hh))
  | Except.ok v1, Except.ok v2 =>
    if h : v1 = v2 then isTrue (congrArg Except.ok h)
    else isFalse (fun hh => h (Except.ok.inj hh))
  | Except.error _, Except.ok _ => isFalse (fun hh => Except.noConfusion hh)
  | Except.ok _, Except.error _ => isFalse (fun hh => Except.noConfusion hh)

/-- `cephconfig.MonInfo`: a quorum member. -/
structure MonInfo where
  Name : String
  Endpoint : String
deriving DecidableEq, Repr

/-- `mon.NodeInfo`: node data recorded for a pinned member. -/
structure NodeInfo where
  Name : String
  Hostname : String
  Address : String
deriving DecidableEq, Repr

/-- `mon.Mapping`: the best-effort node-pinning map. -/
structure Mapping where
  Node : List (String × NodeInfo)
deriving DecidableEq, Repr

def emptyMapping : Mapping := ⟨[]⟩

/-- `cephconfig.ExternalCred`: username/secret pair for an
externally-managed cluster. -/
structure ExternalCred where
  Username : String
  Secret : String
deriving DecidableEq, Repr

/-- `cephconfig.ClusterInfo` (the fields used by this package). -/
structure ClusterInfo where
  Name : String
  FSID : String
  MonitorSecret : String
  AdminSecret : String
  Monitors : List MonInfo
  ExternalCred : ExternalCred
deriving DecidableEq, Repr

/-- Outcome of a Kubernetes `Get` call: found data, a NotFound error,
or any other (hard) failure. -/
inductive GetResult (α : Type) where
  | found (val : α)
  | notFound
  | failure (msg : String)
deriving DecidableEq, Repr

/-- Whether a `Get` outcome is a hard (non-NotFound) failure. -/
def GetResult.isFailure {α : Type} : GetResult α → Bool
  | GetResult.failure _ => true
  | _ => false

/-- The `Data` map seen by the Go caller: on any error the typed
client returns a zero-valued object whose nil `Data` map yields empty
strings on lookup. -/
def secretData : GetResult (List (String × String)) → List (String × String)
  | GetResult.found d => d
  | _ => []

/-! ### Member parsing (modelled collaborators of `loadMonConfig`) -/

/-- Modelled from the spec: `fullNameToIndex` is declared outside src/.
The spec derives member IDs from "the highest numeric suffix found in
any member name"; this returns the decimal suffix of the name together
with a success flag, `(-1, false)` when the name has no digit suffix. -/
def fullNameToIndex (name : String) : Int × Bool :=
  let ds := (name.toList.reverse.takeWhile Char.isDigit).reverse
  if ds.isEmpty then (-1, false) else (Int.ofNat (digitsToNat ds), true)

/-- Modelled from the spec: `ParseMonEndpoints` is declared outside
src/.  The spec parses "a persisted directory string of
`name=address` tokens", comma-separated; malformed tokens are skipped
with a warning. -/
def ParseMonEndpoints (input : String) : List MonInfo :=
  (goSplitOn input ",").foldl
    (fun acc raw =>
      match goSplitOn raw "=" with
      | [name, endpointStr] => acc ++ [⟨name, endpointStr⟩]
      | _ => acc)
    []

/-! ### JSON (for the node-pinning blob)

`encoding/json.Unmarshal` into `Mapping`, modelled by a small JSON
parser (string escape sequences are not interpreted; the node-pinning
blob written by the operator never contains them) followed by a
Go-style decoder: unknown object fields are ignored, `null` leaves the
zero value in place, and a type mismatch is an error. -/

def lbrace : Char := Char.ofNat 123
def rbrace : Char := Char.ofNat 125

inductive JsonVal where
  | null
  | boolVal (b : Bool)
  | numVal (n : Int)
  | strVal (s : String)
  | arrVal (elems : List JsonVal)
  | objVal (fields : List (String × JsonVal))

/-- Drop leading JSON whitespace. -/
def skipWs : List Char → List Char
  | c :: rest => if c.isWhitespace then skipWs rest else c :: rest
  | [] => []

/-- Consume an expected literal. -/
def parseLit (lit : List Char) (cs : List Char) : Option (List Char) :=
  if cs.take lit.length = lit then some (cs.drop lit.length) else none

/-- Body of a JSON string after the opening quote. -/
def jsonStrBody : List Char → List Char → Option (String × List Char)
  | [], _ => none
  | '"' :: rest, acc => some (String.mk acc.reverse, rest)
  | c :: rest, acc => jsonStrBody rest (c :: acc)

/-- A JSON string including the opening quote. -/
def jsonStrLit : List Char → Option (String × List Char)
  | '"' :: rest => jsonStrBody rest []
  | _ => none

/-- A JSON integer (fractions and exponents rejected as unsupported). -/
def jsonNumLit (cs : List Char) : Option (Int × List Char) :=
  let signDigits : Bool × List Char :=
    match cs with
    | '-' :: r => (true, r)
    | _ => (false, cs)
  let neg := signDigits.1
  let body := signDigits.2
  let ds := body.takeWhile Char.isDigit
  if ds.isEmpty then none
  else
    let rest := body.drop ds.length
    match rest with
    | '.' :: _ => none
    | 'e' :: _ => none
    | 'E' :: _ => none
    | _ =>
      let n : Int := Int.ofNat (digitsToNat ds)
      some (if neg then -n else n, rest)

mutual

/-- A JSON value, by recursive descent with explicit fuel. -/
def parseJsonVal : Nat → List Char → Option (JsonVal × List Char)
  | 0, _ => none
  | Nat.succ fuel, cs0 =>
    match skipWs cs0 with
    | [] => none
    | c :: rest =>
      if c = '"' then (jsonStrBody rest []).map (fun p => (JsonVal.strVal p.1, p.2))
      else if c = lbrace then
        match skipWs rest with
        | [] => none
        | c2 :: rest2 =>
          if c2 = rbrace then some (JsonVal.objVal [], rest2)
          else parseObjFields fuel (c2 :: rest2) []
      else if c = '[' then
        match skipWs rest with
        | ']' :: rest2 => some (JsonVal.arrVal [], rest2)
        | cs2 => parseArrElems fuel cs2 []
      else if c = 'n' then (parseLit ['u', 'l', 'l'] rest).map (fun r => (JsonVal.null, r))
      else if c = 't' then (parseLit ['r', 'u', 'e'] rest).map (fun r => (JsonVal.boolVal true, r))
      else if c = 'f' then (parseLit ['a', 'l', 's', 'e'] rest).map (fun r => (JsonVal.boolVal false, r))
      else (jsonNumLit (c :: rest)).map (fun p => (JsonVal.numVal p.1, p.2))

/-- Fields of a JSON object after the opening brace (nonempty case). -/
def parseObjFields : Nat → List Char → List (String × JsonVal) → Option (JsonVal × List Char)
  | 0, _, _ => none
  | Nat.succ fuel, cs, acc =>
    match jsonStrLit (skipWs cs) with
    | none => none
    | some (key, cs1) =>
      match skipWs cs1 with
      | ':' :: cs2 =>
        match parseJsonVal fuel cs2 with
        | none => none
        | some (v, cs3) =>
          match skipWs cs3 with
          | ',' :: cs4 => parseObjFields fuel cs4 (acc ++ [(key, v)])
          | c :: cs4 =>
            if c = rbrace then some (JsonVal.objVal (acc ++ [(key, v)]), cs4) else none
          | [] => none
      | _ => none

/-- Elements of a JSON array after the opening bracket (nonempty case). -/
def parseArrElems : Nat → List Char → List JsonVal → Option (JsonVal × List Char)
  | 0, _, _ => none
  | Nat.succ fuel, cs, acc =>
    match parseJsonVal fuel cs with
    | none => none
    | some (v, cs1) =>
      match skipWs cs1 with
      | ',' :: cs2 => parseArrElems fuel cs2 (acc ++ [v])
      | ']' :: cs2 => some (JsonVal.arrVal (acc ++ [v]), cs2)
      | _ => none

end

/-- Parse a complete JSON document (trailing whitespace allowed). -/
def parseJson (s : String) : Option JsonVal :=
  match parseJsonVal (s.toList.length + 2) s.toList with
  | some (v, rest) => if (skipWs rest).isEmpty then some v else none
  | none => none

/-- Decode one string-typed struct field: absent or `null` leaves the
zero value, a non-string value is a type error. -/
def jsonStringField (fs : List (String × JsonVal)) (k : String) : Option String :=
  match fs.lookup k with
  | none => some ""
  | some (JsonVal.strVal s) => some s
  | some JsonVal.null => some ""
  | some _ => none

/-- Decode a `NodeInfo` (a JSON null decodes to the zero value, as Go
leaves a nil pointer's pointee unset). -/
def decodeNodeInfo : JsonVal → Option NodeInfo
  | JsonVal.null => some ⟨"", "", ""⟩
  | JsonVal.objVal fs =>
    match jsonStringField fs "Name", jsonStringField fs "Hostname", jsonStringField fs "Address" with
    | some n, some h, some a => some ⟨n, h, a⟩
    | _, _, _ => none
  | _ => none

/-- Decode a `Mapping` from a JSON value. -/
def decodeMapping : JsonVal → Option Mapping
  | JsonVal.null => some emptyMapping
  | JsonVal.objVal fs =>
    match fs.lookup "node" with
    | none => some emptyMapping
    | some JsonVal.null => some emptyMapping
    | some (JsonVal.objVal nodeFs) =>
      (nodeFs.mapM (fun kv => (decodeNodeInfo kv.2).map (fun ni => (kv.1, ni)))).map Mapping.mk
    | some _ => none
  | _ => none

/-- `json.Unmarshal` of the node-pinning blob: `none` mirrors a non-nil
error (in which case the caller keeps its initialized empty mapping). -/
def jsonUnmarshalMapping (s : String) : Option Mapping :=
  match parseJson s with
  | none => none
  | some v => decodeMapping v

/-! ### loadMonConfig -/

/-- The triple returned by `loadMonConfig` on success. -/
structure MonConfigResult where
  monitors : List MonInfo
  maxMonID : Int
  monMapping : Mapping
deriving DecidableEq, Repr

/-- The monitor list parsed from the config-map data (`monEndpointMap`
stays empty when the endpoint key is absent). -/
def parsedMonitors (data : List (String × String)) : List MonInfo :=
  match data.lookup EndpointDataKey with
  | some info => ParseMonEndpoints info
  | none => []

/-- The max mon id before reconciling against member names: `-1` when
the key is absent, otherwise `strconv.Atoi`'s value — on a parse error
the error is only logged, so Atoi's fallback `0` is kept. -/
def parsedMaxMonIDBase (data : List (String × String)) : Int :=
  match data.lookup MaxMonIDKey with
  | some id => (goAtoi id).1
  | none => -1

/-- The node mapping parsed from the config-map data: malformed JSON
is only logged, keeping the initialized empty mapping. -/
def parsedMapping (data : List (String × String)) : Mapping :=
  match jsonUnmarshalMapping ((data.lookup MappingKey).getD "") with
  | some m => m
  | none => emptyMapping

/-- `loadMonConfig`: parse the persisted endpoint config map into the
monitor map, the max mon ID and the node mapping.  The config-map
`Get` outcome is the explicit input.  A NotFound yields the empty
monitor set with `maxMonID = -1`; otherwise the max id read from the
data is raised to the largest member name index. -/
def loadMonConfig (cm : GetResult (List (String × String))) : Except String MonConfigResult :=
  match cm with
  | GetResult.failure msg => Except.error msg
  | GetResult.notFound => Except.ok ⟨[], -1, emptyMapping⟩
  | GetResult.found data =>
    Except.ok
      ⟨parsedMonitors data,
       (parsedMonitors data).foldl (fun acc m => max acc (fullNameToIndex m.Name).1)
         (parsedMaxMonIDBase data),
       parsedMapping data⟩

/-- The candidate secret inside `ExtractKey`: the third
whitespace-separated field of the first keyring line containing
`"key"`, or the initial empty string when there are fewer than three
fields. -/
def extractedSecret (contents : String) : String :=
  if 3 ≤ (goFields (goGrep contents "key")).length then
    (goFields (goGrep contents "key")).getD 2 ""
  else ""

/-- `ExtractKey`: fails with a parse error when the candidate secret
is empty, otherwise returns it. -/
def ExtractKey (contents : String) : Except String String :=
  if extractedSecret contents = "" then Except.error "failed to parse secret"
  else Except.ok (extractedSecret contents)

/-! ### Identity creation (with an explicit store-write trace) -/

/-- Externally visible effects on the cluster store: an invocation of
the key-generation collaborator (`ceph-authtool`, recorded with its
full argument list) or a Kubernetes secret `Create` call. -/
inductive StoreEvent where
  | keyGen (name : String) (args : List String)
  | createSecret (name : String) (data : List (String × String))
deriving DecidableEq, Repr

/-- Oracles for the collaborators of `genSecret`: the executor output
of `ceph-authtool` and the keyring file read back afterwards. -/
structure SecretOracle where
  execOut : List String → Except String String
  readFile : String → Except String String

/-- The keyring path `path.Join(configDir, name + ".keyring")` with the
first `".."` collapsed to `"."` (the `"mon."` name produces one). -/
def keyringPath (configDir name : String) : String :=
  replaceOnce (configDir ++ "/" ++ name ++ ".keyring") ".." "."

/-- Full `ceph-authtool` argument list built by `genSecret`. -/
def genKeyringArgs (configDir name : String) (caps : List String) : List String :=
  ["--create-keyring", keyringPath configDir name, "--gen-key", "-n", name] ++ caps

/-- The secret produced by one `genSecret` run: run the key-generation
tool, read the keyring back and extract the secret. -/
def genSecretResult (oracle : SecretOracle) (configDir name : String) (args : List String) :
    Except String String :=
  match oracle.execOut (genKeyringArgs configDir name args) with
  | Except.error e => Except.error ("failed to gen secret: " ++ e)
  | Except.ok _ =>
    match oracle.readFile (keyringPath configDir name) with
    | Except.error e => Except.error ("failed to read secret file: " ++ e)
    | Except.ok contents => ExtractKey contents

/-- `genSecret`: the run's outcome plus its effect trace — every run
invokes the key-generation tool exactly once, with the full argument
list. -/
def genSecret (oracle : SecretOracle) (configDir name : String) (args : List String) :
    Except String String × List StoreEvent :=
  (genSecretResult oracle configDir name args,
   [StoreEvent.keyGen name (genKeyringArgs configDir name args)])

/-- Capability arguments for the quorum (mon) secret. -/
def monCapArgs : List String :=
  ["--cap", "mon", squote ++ "allow *" ++ squote]

/-- Capability arguments for the admin secret as the source builds
them: mon/osd/mgr get `allow *`, mds gets `allow` (no star). -/
def adminCapArgs : List String :=
  ["--cap", "mon", squote ++ "allow *" ++ squote,
   "--cap", "osd", squote ++ "allow *" ++ squote,
   "--cap", "mgr", squote ++ "allow *" ++ squote,
   "--cap", "mds", squote ++ "allow" ++ squote]

/-- The admin capability arguments as the specification claims them:
mon/osd/mgr/mds all `allow *`.  Kept only to compare with
`adminCapArgs`, which is translated from the source. -/
def claimedAdminCapArgs : List String :=
  ["--cap", "mon", squote ++ "allow *" ++ squote,
   "--cap", "osd", squote ++ "allow *" ++ squote,
   "--cap", "mgr", squote ++ "allow *" ++ squote,
   "--cap", "mds", squote ++ "allow *" ++ squote]

/-- `createNamedClusterInfo`: generate the fsid (the random UUID is the
`fsid` oracle input), then the mon secret and the admin secret, in that
order.  Returns the new cluster info plus the effect trace. -/
def createNamedClusterInfo (oracle : SecretOracle) (fsid configDir clusterName : String) :
    Except String ClusterInfo × List StoreEvent :=
  match genSecretResult oracle (configDir ++ "/" ++ clusterName) "mon." monCapArgs with
  | Except.error e =>
    (Except.error e, (genSecret oracle (configDir ++ "/" ++ clusterName) "mon." monCapArgs).2)
  | Except.ok monSecret =>
    match genSecretResult oracle (configDir ++ "/" ++ clusterName) AdminUsername adminCapArgs with
    | Except.error e =>
      (Except.error e,
       (genSecret oracle (configDir ++ "/" ++ clusterName) "mon." monCapArgs).2 ++
         (genSecret oracle (configDir ++ "/" ++ clusterName) AdminUsername adminCapArgs).2)
    | Except.ok adminSecret =>
      (Except.ok ⟨clusterName, fsid, monSecret, adminSecret, [], ⟨"", ""⟩⟩,
       (genSecret oracle (configDir ++ "/" ++ clusterName) "mon." monCapArgs).2 ++
         (genSecret oracle (configDir ++ "/" ++ clusterName) AdminUsername adminCapArgs).2)

/-- The four-field secret blob persisted for a new cluster. -/
def accessSecretData (ci : ClusterInfo) : List (String × String) :=
  [(clusterSecretName, ci.Name), (fsidSecretName, ci.FSID),
   (monSecretName, ci.MonitorSecret), (AdminSecretName, ci.AdminSecret)]

/-- `createClusterAccessSecret`: persist name, fsid and both secrets as
one secret `Create` call; `createOutcome` is the store's answer. -/
def createClusterAccessSecret (ci : ClusterInfo) (createOutcome : Except String Unit) :
    Except String Unit × List StoreEvent :=
  (match createOutcome with
   | Except.error e => Except.error ("failed to save mon secrets: " ++ e)
   | Except.ok _ => Except.ok (),
   [StoreEvent.createSecret AppName (accessSecretData ci)])

/-- The external-store state consulted by `CreateOrLoadClusterInfo`:
the `Get` outcome for the mon secret, the `Get` outcome for the
endpoint config map, and the outcome the store would give a secret
`Create` call. -/
structure K8sState where
  monSecretGet : GetResult (List (String × String))
  endpointConfigMapGet : GetResult (List (String × String))
  secretCreate : Except String Unit
deriving Repr

/-- `CreateOrLoadClusterInfo`: load the persisted identity blob, or —
only when it is absent and an owner reference was supplied — create
and persist a fresh one; then load the mon config.  Returns the
outcome together with the trace of writes performed. -/
def CreateOrLoadClusterInfo (st : K8sState) (oracle : SecretOracle)
    (fsid configDir namespaceName : String) (ownerRef : Option Unit) :
    Except String (ClusterInfo × Int × Mapping) × List StoreEvent :=
  match st.monSecretGet with
  | GetResult.failure e => (Except.error ("failed to get mon secrets: " ++ e), [])
  | GetResult.notFound =>
    match ownerRef with
    | none =>
      (Except.error "not expected to create new cluster info and did not find existing secret", [])
    | some _ =>
      match (createNamedClusterInfo oracle fsid configDir namespaceName).1 with
      | Except.error e =>
        (Except.error ("failed to create mon secrets: " ++ e),
         (createNamedClusterInfo oracle fsid configDir namespaceName).2)
      | Except.ok ci =>
        match (createClusterAccessSecret ci st.secretCreate).1 with
        | Except.error e =>
          (Except.error e,
           (createNamedClusterInfo oracle fsid configDir namespaceName).2 ++
             (createClusterAccessSecret ci st.secretCreate).2)
        | Except.ok _ =>
          match loadMonConfig st.endpointConfigMapGet with
          | Except.error e =>
            (Except.error ("failed to get mon config: " ++ e),
             (createNamedClusterInfo oracle fsid configDir namespaceName).2 ++
               (createClusterAccessSecret ci st.secretCreate).2)
          | Except.ok res =>
            (Except.ok ({ ci with Monitors := res.monitors }, res.maxMonID, res.monMapping),
             (createNamedClusterInfo oracle fsid configDir namespaceName).2 ++
               (createClusterAccessSecret ci st.secretCreate).2)
  | GetResult.found data =>
    match loadMonConfig st.endpointConfigMapGet with
    | Except.error e => (Except.error ("failed to get mon config: " ++ e), [])
    | Except.ok res =>
      (Except.ok
        ({ Name := (data.lookup clusterSecretName).getD "",
           FSID := (data.lookup fsidSecretName).getD "",
           MonitorSecret := (data.lookup monSecretName).getD "",
           AdminSecret := (data.lookup AdminSecretName).getD "",
           Monitors := res.monitors, ExternalCred := ⟨"", ""⟩ },
         res.maxMonID, res.monMapping), [])

/-! ### External cluster credentials -/

/-- The failure message of a hard `Get` failure (empty otherwise). -/
def GetResult.failMsg {α : Type} : GetResult α → String
  | GetResult.failure e => e
  | _ => ""

/-- The external credential read off the operator secret's data: the
`userID` / `userKey` entries, empty when absent. -/
def externalCredFrom (r : GetResult (List (String × String))) : ExternalCred :=
  ⟨((secretData r).lookup "userID").getD "", ((secretData r).lookup "userKey").getD ""⟩

/-- `ValidateAndLoadExternalClusterSecrets`: read the operator
credential secret and probe the four csi secrets.  A NotFound on any
lookup is not an error (`!kerrors.IsNotFound(err)` guards every
return); only hard lookup failures are returned. -/
def ValidateAndLoadExternalClusterSecrets
    (store : String → GetResult (List (String × String))) : Except String ExternalCred :=
  if (store OperatorCreds).isFailure then
    Except.error ("failed to get external user secret: " ++ (store OperatorCreds).failMsg)
  else if (store CsiRBDNodeSecret).isFailure then
    Except.error ("failed to get " ++ CsiRBDNodeSecret ++ " secret: " ++
      (store CsiRBDNodeSecret).failMsg)
  else if (store CsiRBDProvisionerSecret).isFailure then
    Except.error ("failed to get " ++ CsiRBDProvisionerSecret ++ " secret: " ++
      (store CsiRBDProvisionerSecret).failMsg)
  else if (store CsiCephFSNodeSecret).isFailure then
    Except.error ("failed to get " ++ CsiCephFSNodeSecret ++ " secret: " ++
      (store CsiCephFSNodeSecret).failMsg)
  else if (store CsiCephFSProvisionerSecret).isFailure then
    Except.error ("failed to get " ++ CsiCephFSProvisionerSecret ++ " secret: " ++
      (store CsiCephFSProvisionerSecret).failMsg)
  else Except.ok (externalCredFrom (store OperatorCreds))

/-- `IsExternalHealthCheckUserAdmin`: the stored admin secret counts as
an admin credential iff it differs from the placeholder constant. -/
def IsExternalHealthCheckUserAdmin (adminSecret : String) : Bool :=
  adminSecret != AdminSecretName

/-- The fixed retry interval of the external polling loop, in seconds
(`externalConnectionRetry = 60 * time.Second`). -/
def externalConnectionRetrySeconds : Nat := 60

/-- The world as one iteration of `PopulateExternalClusterInfo` sees
it: the outcome of `LoadClusterInfo` and the secret store consulted by
`ValidateAndLoadExternalClusterSecrets`. -/
structure PopulateState where
  loadResult : Except String ClusterInfo
  secretStore : String → GetResult (List (String × String))

/-- One iteration of the `PopulateExternalClusterInfo` loop: `some`
means the loop breaks with the given cluster info, `none` means it
sleeps `externalConnectionRetrySeconds` and retries. -/
def populateStep (st : PopulateState) : Option ClusterInfo :=
  match st.loadResult with
  | Except.error _ => none
  | Except.ok ci =>
    if IsExternalHealthCheckUserAdmin ci.AdminSecret then
      some { ci with ExternalCred := ⟨AdminUsername, ci.AdminSecret⟩ }
    else
      match ValidateAndLoadExternalClusterSecrets st.secretStore with
      | Except.error _ => none
      | Except.ok cred => some { ci with ExternalCred := cred }

/-- `PopulateExternalClusterInfo`, run over the sequence of world
states seen at successive iterations, with fuel.  On success it
returns the cluster info together with the total seconds slept before
returning (a multiple of the fixed 60-second interval). -/
def PopulateExternalClusterInfo (states : Nat → PopulateState) : Nat → Option (ClusterInfo × Nat)
  | 0 => none
  | Nat.succ fuel =>
    match populateStep (states 0) with
    | some ci => some (ci, 0)
    | none =>
      (PopulateExternalClusterInfo (fun i => states (i + 1)) fuel).map
        (fun p => (p.1, p.2 + externalConnectionRetrySeconds))

/-! ### Config synthesis (ConfigSynthesizer)

`CreateDefaultCephConfig` / `GenerateConfigFile` live outside src/
(only their test is present), so the document model, the merge and the
render path are modelled from the spec and validated against the
expectations of `TestGenerateConfigFile`. -/

/-- A config section: key/value pairs. -/
abbrev IniSection := List (String × String)

/-- A config document: named sections. -/
abbrev IniDoc := List (String × IniSection)

/-- Replace the value of `key` in a section, or append it. -/
def setSectionValue (sec : IniSection) (key val : String) : IniSection :=
  if sec.any (fun kv => kv.1 = key) then
    sec.map (fun kv => if kv.1 = key then (key, val) else kv)
  else sec ++ [(key, val)]

/-- Set one `(section, key)` to `val`, adding the section if absent. -/
def setIniValue (doc : IniDoc) (secName key val : String) : IniDoc :=
  if doc.any (fun s => s.1 = secName) then
    doc.map (fun s => if s.1 = secName then (s.1, setSectionValue s.2 key val) else s)
  else doc ++ [(secName, [(key, val)])]

/-- Modelled from the spec: deep-merge the override document onto the
base document at `(section, key)` granularity — an override key
replaces the default value, keys only in the base are preserved,
sections only in the override are added. -/
def mergeIniDoc (base ovr : IniDoc) : IniDoc :=
  ovr.foldl (fun acc sec => sec.2.foldl (fun acc2 kv => setIniValue acc2 sec.1 kv.1 kv.2) acc) base

/-- Look up `(section, key)` in a document. -/
def iniGet (doc : IniDoc) (sec key : String) : Option String :=
  (doc.lookup sec).bind (fun s => s.lookup key)

/-- One line of the section/key override grammar. -/
def parseIniLine (doc : IniDoc) (cur : String) (line : String) : IniDoc × String :=
  let l := goTrim line
  if l = "" then (doc, cur)
  else if strStartsWith l "[" && strEndsWith l "]" then
    let name := goTrim (String.mk (l.toList.drop 1).dropLast)
    ((if doc.any (fun s => s.1 = name) then doc else doc ++ [(name, [])]), name)
  else
    match goSplitOn l "=" with
    | [] => (doc, cur)
    | [_] => (doc, cur)
    | key :: rest =>
      (setIniValue doc cur (goTrim key) (goTrim (goIntercalate "=" rest)), cur)

/-- Modelled from the spec: parse an override document in the
section/key grammar (`[section]` headers, `key = value` lines). -/
def parseIniDoc (text : String) : IniDoc :=
  ((goSplitOn text "\n").foldl (fun acc l => parseIniLine acc.1 acc.2 l) (([] : IniDoc), "")).1

/-- Modelled from the spec: `CreateDefaultCephConfig` emits a `global`
section carrying the unique ID (`fsid`), the quorum member list, the
quorum address directory and the numeric log verbosity. -/
def createDefaultCephConfig (ci : ClusterInfo) (monMembers monHost : String)
    (verbosity : Nat) : IniDoc :=
  [("global",
    [("fsid", ci.FSID),
     ("mon initial members", monMembers),
     ("mon host", monHost),
     ("log to file", toString verbosity)])]

/-- Modelled from the spec: `GenerateConfigFile` merges the parsed
override text onto the default document and writes the result to
`<destinationDir>/<clusterName>.config`, returning that path. -/
def generateConfigFile (defaultDoc : IniDoc) (overrideText : Option String)
    (destDir clusterName : String) : String × IniDoc :=
  let merged :=
    match overrideText with
    | none => defaultDoc
    | some t => mergeIniDoc defaultDoc (parseIniDoc t)
  (destDir ++ "/" ++ clusterName ++ ".config", merged)

/-! ### Driver eligibility gate -/

/-- Go's `<` on strings: lexicographic byte order (identical to
character-wise comparison on the ASCII version strings compared by the
gate). -/
def goStringLessChars : List Char → List Char → Bool
  | [], [] => false
  | [], _ :: _ => true
  | _ :: _, [] => false
  | a :: as, b :: bs =>
    if a.toNat < b.toNat then true
    else if b.toNat < a.toNat then false
    else goStringLessChars as bs

/-- Go's `s < t` for strings. -/
def goStrLess (a b : String) : Bool :=
  goStringLessChars a.toList b.toList

/-- `csi.KubeMinMajor` / `csi.KubeMinMinor`: the minimum platform
version.  `serverVersion.Major` / `serverVersion.Minor` are the string
fields of k8s `version.Info`, so for the gate's comparison to compile
these constants are strings; their values, "1" and "13", come from the
gate's own log message ("CSI drivers only supported in K8s 1.13 or
newer"). -/
def KubeMinMajor : String := "1"
def KubeMinMinor : String := "13"

/-- The version comparison of `updateDrivers`: drivers are disabled
when `major < minMajor`, or `major == minMajor && minor < minMinor` —
Go string comparisons, hence lexicographic, not numeric. -/
def csiDriversDisabledByVersion (major minor minMajor minMinor : String) : Bool :=
  goStrLess major minMajor || (major == minMajor && goStrLess minor minMinor)

/-- The csi control flags cleared by the gate. -/
structure CsiFlags where
  EnableRBD : Bool
  EnableCephFS : Bool
deriving DecidableEq, Repr

/-- The version-gate portion of `updateDrivers`: when the comparison
fires, both csi control flags are cleared, otherwise left alone. -/
def updateDriversVersionGate (flags : CsiFlags) (major minor : String) : CsiFlags :=
  if csiDriversDisabledByVersion major minor KubeMinMajor KubeMinMinor then ⟨false, false⟩
  else flags

/-! ### Helper lemmas and witness inputs -/

/-- Folding `max` distributes over a `max` in the initial value. -/
theorem foldl_max_max {α : Type} (f : α → Int) :
    ∀ (l : List α) (b c : Int),
      l.foldl (fun a x => max a (f x)) (max b c) = max b (l.foldl (fun a x => max a (f x)) c) := by
  intro l
  induction l with
  | nil => intro b c; rfl
  | cons x t ih =>
    intro b c
    simp only [List.foldl_cons]
    rw [max_assoc, ih]

/-- The initial value is a lower bound of a `max` fold. -/
theorem le_foldl_max {α : Type} (f : α → Int) :
    ∀ (l : List α) (b : Int), b ≤ l.foldl (fun a x => max a (f x)) b := by
  intro l
  induction l with
  | nil => intro b; exact le_refl b
  | cons x t ih =>
    intro b
    simp only [List.foldl_cons]
    exact le_trans (le_max_left b (f x)) (ih (max b (f x)))

/-- Every listed value is a lower bound of a `max` fold. -/
theorem mem_le_foldl_max {α : Type} (f : α → Int) :
    ∀ (l : List α) (b : Int) (x : α), x ∈ l → f x ≤ l.foldl (fun a y => max a (f y)) b := by
  intro l
  induction l with
  | nil => intro b x hx; cases hx
  | cons y t ih =>
    intro b x hx
    simp only [List.foldl_cons]
    rcases List.mem_cons.mp hx with h | h
    · subst h; exact le_trans (le_max_right b (f x)) (le_foldl_max f t (max b (f x)))
    · exact ih (max b (f y)) x h

/-- A `max` fold over values below the initial value keeps it. -/
theorem foldl_max_of_le {α : Type} (f : α → Int) :
    ∀ (l : List α) (b : Int), (∀ x ∈ l, f x ≤ b) → l.foldl (fun a x => max a (f x)) b = b := by
  intro l
  induction l with
  | nil => intro b _; rfl
  | cons y t ih =>
    intro b h
    simp only [List.foldl_cons]
    rw [max_eq_left (h y (List.mem_cons_self y t))]
    exact ih b (fun x hx => h x (List.mem_cons_of_mem y hx))

/-- The highest numeric name suffix over a member list (`none` for an
empty list). -/
def highestNameSuffix : List MonInfo → Option Int
  | [] => none
  | m :: rest =>
    some (rest.foldl (fun a x => max a (fullNameToIndex x.Name).1) (fullNameToIndex m.Name).1)

/-- `genSecret` always records exactly one key-generation event,
carrying the full tool argument list. -/
theorem genSecret_trace (oracle : SecretOracle) (configDir name : String) (args : List String) :
    (genSecret oracle configDir name args).2 =
      [StoreEvent.keyGen name (genKeyringArgs configDir name args)] := rfl

/-- The five secret names probed by the external credential loader. -/
def externalSecretNames : List String :=
  [OperatorCreds, CsiRBDNodeSecret, CsiRBDProvisionerSecret,
   CsiCephFSNodeSecret, CsiCephFSProvisionerSecret]

/-- When none of the five lookups fails hard, the external credential
loader succeeds with the credentials read from the operator secret
(empty strings when that secret is absent). -/
theorem validateExternalSecrets_ok (store : String → GetResult (List (String × String)))
    (h : ∀ n ∈ externalSecretNames, (store n).isFailure = false) :
    ValidateAndLoadExternalClusterSecrets store =
      Except.ok (externalCredFrom (store OperatorCreds)) := by
  have h0 := h OperatorCreds (by simp [externalSecretNames])
  have h1 := h CsiRBDNodeSecret (by simp [externalSecretNames])
  have h2 := h CsiRBDProvisionerSecret (by simp [externalSecretNames])
  have h3 := h CsiCephFSNodeSecret (by simp [externalSecretNames])
  have h4 := h CsiCephFSProvisionerSecret (by simp [externalSecretNames])
  simp [ValidateAndLoadExternalClusterSecrets, h0, h1, h2, h3, h4]

/-! ### Claim theorems -/

/-- C1: for every persisted membership record whose decimal counter
parses, the maxMonID returned by `loadMonConfig` equals the maximum of
the persisted counter and the highest numeric suffix found among the
member names; in particular it bounds every parsed member's numeric ID
from above, and it is never below the counter value that was read. -/
theorem loadMonConfig_maxMonID_correct (data : List (String × String)) (s : String) (c : Int)
    (hs : data.lookup MaxMonIDKey = some s) (hc : goAtoi s = (c, true)) :
    ∃ res, loadMonConfig (GetResult.found data) = Except.ok res ∧
      res.maxMonID = (match highestNameSuffix res.monitors with
                      | none => c
                      | some hi => max c hi) ∧
      c ≤ res.maxMonID ∧
      ∀ m ∈ res.monitors, (fullNameToIndex m.Name).1 ≤ res.maxMonID := by
  have hbase : parsedMaxMonIDBase data = c := by
    simp [parsedMaxMonIDBase, hs, hc]
  refine ⟨_, rfl, ?_, ?_, ?_⟩
  · show (parsedMonitors data).foldl (fun acc m => max acc (fullNameToIndex m.Name).1)
        (parsedMaxMonIDBase data) =
      (match highestNameSuffix (parsedMonitors data) with
       | none => c
       | some hi => max c hi)
    rw [hbase]
    cases parsedMonitors data with
    | nil => simp [highestNameSuffix]
    | cons m t =>
      simp only [highestNameSuffix, List.foldl_cons]
      exact foldl_max_max (fun x => (fullNameToIndex x.Name).1) t c (fullNameToIndex m.Name).1
  · show c ≤ (parsedMonitors data).foldl (fun acc m => max acc (fullNameToIndex m.Name).1)
      (parsedMaxMonIDBase data)
    rw [hbase]
    exact le_foldl_max _ _ _
  · intro m hm
    exact mem_le_foldl_max _ _ _ _ hm

/-- C1 witness: a concrete record with counter `3` and a member name
suffix `5` instantiates the theorem. -/
theorem loadMonConfig_maxMonID_correct_witness :
    ∃ res, loadMonConfig (GetResult.found [(MaxMonIDKey, "3"), (EndpointDataKey, "a=e1,mon5=e2")]) =
        Except.ok res ∧
      res.maxMonID = (match highestNameSuffix res.monitors with
                      | none => (3 : Int)
                      | some hi => max 3 hi) ∧
      (3 : Int) ≤ res.maxMonID ∧
      ∀ m ∈ res.monitors, (fullNameToIndex m.Name).1 ≤ res.maxMonID :=
  loadMonConfig_maxMonID_correct [(MaxMonIDKey, "3"), (EndpointDataKey, "a=e1,mon5=e2")] "3" 3
    (by decide) (by decide)

/-- C5 counterexample: with an unparseable counter and no members, the
load does not propagate a parse error — it succeeds with `maxMonID`
equal to `strconv.Atoi`'s fallback `0` and an empty monitor set, even
though the counter fails to parse. -/
theorem loadMonConfig_badCounter_cex :
    loadMonConfig (GetResult.found [(MaxMonIDKey, "garbage")]) =
      Except.ok ⟨[], 0, emptyMapping⟩ ∧
    (goAtoi "garbage").2 = false := by
  exact ⟨rfl, by decide⟩

/-- C5 amended: when the persisted counter is an unparseable decimal
string and no member ID can be derived from member names, the load
still succeeds — the parse failure is only logged, and the returned
maxMonID is `strconv.Atoi`'s fallback value `0`. -/
theorem loadMonConfig_badCounter_amended (data : List (String × String)) (s : String)
    (hs : data.lookup MaxMonIDKey = some s) (hc : goAtoi s = (0, false))
    (hnoid : ∀ m ∈ parsedMonitors data, (fullNameToIndex m.Name).1 ≤ -1) :
    ∃ res, loadMonConfig (GetResult.found data) = Except.ok res ∧ res.maxMonID = 0 := by
  have hbase : parsedMaxMonIDBase data = 0 := by
    simp [parsedMaxMonIDBase, hs, hc]
  refine ⟨_, rfl, ?_⟩
  show (parsedMonitors data).foldl (fun acc m => max acc (fullNameToIndex m.Name).1)
      (parsedMaxMonIDBase data) = 0
  rw [hbase]
  exact foldl_max_of_le _ _ _ (fun x hx => le_trans (hnoid x hx) (by norm_num))

/-- C5 amended witness: the concrete record with counter `garbage`. -/
theorem loadMonConfig_badCounter_amended_witness :
    ∃ res, loadMonConfig (GetResult.found [(MaxMonIDKey, "garbage")]) = Except.ok res ∧
      res.maxMonID = 0 :=
  loadMonConfig_badCounter_amended [(MaxMonIDKey, "garbage")] "garbage" (by decide) (by decide)
    (by decide)

/-- C6: when the node-pinning field is malformed JSON, `loadMonConfig`
still succeeds, returning the parsed members together with the empty
node-pinning mapping (the JSON failure is only logged). -/
theorem loadMonConfig_badMapping_ok (data : List (String × String))
    (h : jsonUnmarshalMapping ((data.lookup MappingKey).getD "") = none) :
    ∃ res, loadMonConfig (GetResult.found data) = Except.ok res ∧
      res.monMapping = emptyMapping ∧
      res.monitors = parsedMonitors data := by
  refine ⟨_, rfl, ?_, rfl⟩
  show parsedMapping data = emptyMapping
  simp [parsedMapping, h]

/-- C6 witness: a concrete record whose mapping blob is not JSON. -/
theorem loadMonConfig_badMapping_ok_witness :
    ∃ res,
      loadMonConfig (GetResult.found [(EndpointDataKey, "mon0=10.0.0.1:6789"), (MappingKey, "bad-json")]) =
        Except.ok res ∧
      res.monMapping = emptyMapping ∧
      res.monitors = parsedMonitors [(EndpointDataKey, "mon0=10.0.0.1:6789"), (MappingKey, "bad-json")] :=
  loadMonConfig_badMapping_ok [(EndpointDataKey, "mon0=10.0.0.1:6789"), (MappingKey, "bad-json")]
    (by decide)

/-- A K8s state with no persisted identity and no endpoint config map. -/
def emptyK8sState : K8sState := ⟨GetResult.notFound, GetResult.notFound, Except.ok ()⟩

/-- An oracle whose tool runs succeed and whose keyring reads yield a
line with the secret `ABC` in the key field. -/
def keyOracle : SecretOracle := ⟨fun _ => Except.ok "", fun _ => Except.ok "key = ABC"⟩

/-- C2: when no identity blob is persisted and no owner reference is
supplied (`allowCreate` false), `CreateOrLoadClusterInfo` fails with
the not-authorized error and performs no writes at all: the event
trace is empty — no secret is created and no identity is generated. -/
theorem createOrLoad_readOnly_noWrites (st : K8sState) (oracle : SecretOracle)
    (fsid configDir ns : String) (h : st.monSecretGet = GetResult.notFound) :
    CreateOrLoadClusterInfo st oracle fsid configDir ns none =
      (Except.error "not expected to create new cluster info and did not find existing secret",
       []) := by
  simp [CreateOrLoadClusterInfo, h]

/-- C2 witness: the empty store instantiates the theorem. -/
theorem createOrLoad_readOnly_noWrites_witness :
    CreateOrLoadClusterInfo emptyK8sState keyOracle "fsid0" "/var/lib/rook" "ns1" none =
      (Except.error "not expected to create new cluster info and did not find existing secret",
       []) :=
  createOrLoad_readOnly_noWrites emptyK8sState keyOracle "fsid0" "/var/lib/rook" "ns1" rfl

/-- C7 counterexample: on a concrete successful creation run, the
second (admin) key-generation call passes the source's capability list
`adminCapArgs`, whose mds capability is `allow` — not the
all-`allow *` list the claim states. -/
theorem createNamedClusterInfo_mdsCap_cex :
    (createNamedClusterInfo keyOracle "fsid0" "/var/lib/rook" "ns1").2 =
      [StoreEvent.keyGen "mon." (genKeyringArgs "/var/lib/rook/ns1" "mon." monCapArgs),
       StoreEvent.keyGen AdminUsername (genKeyringArgs "/var/lib/rook/ns1" AdminUsername adminCapArgs)] ∧
    adminCapArgs ≠ claimedAdminCapArgs ∧
    adminCapArgs.getLast? = some (squote ++ "allow" ++ squote) := by
  refine ⟨by decide, by decide, by decide⟩

/-- C7 amended: when no identity blob exists and creation is allowed,
the create path generates the identity from the fresh random unique ID
(modelled as the `fsid` oracle input), invokes the key-generation
collaborator exactly twice — first for the quorum secret with
capability mon `allow *`, then for the admin secret with capabilities
mon/osd/mgr `allow *` and mds `allow` — and persists the four fields
(name, ID, quorum secret, admin secret) as a single blob in one create
call. -/
theorem createPath_twoKeyGens_oneCreate (st : K8sState) (oracle : SecretOracle)
    (fsid configDir ns ms asec : String)
    (h1 : st.monSecretGet = GetResult.notFound)
    (h2 : genSecretResult oracle (configDir ++ "/" ++ ns) "mon." monCapArgs = Except.ok ms)
    (h3 : genSecretResult oracle (configDir ++ "/" ++ ns) AdminUsername adminCapArgs = Except.ok asec)
    (h4 : st.secretCreate = Except.ok ())
    (h5 : st.endpointConfigMapGet = GetResult.notFound) :
    CreateOrLoadClusterInfo st oracle fsid configDir ns (some ()) =
      (Except.ok (⟨ns, fsid, ms, asec, [], ⟨"", ""⟩⟩, -1, emptyMapping),
       [StoreEvent.keyGen "mon." (genKeyringArgs (configDir ++ "/" ++ ns) "mon." monCapArgs),
        StoreEvent.keyGen AdminUsername (genKeyringArgs (configDir ++ "/" ++ ns) AdminUsername adminCapArgs),
        StoreEvent.createSecret AppName
          [(clusterSecretName, ns), (fsidSecretName, fsid),
           (monSecretName, ms), (AdminSecretName, asec)]]) := by
  simp [CreateOrLoadClusterInfo, h1, createNamedClusterInfo, h2, h3, genSecret,
    createClusterAccessSecret, h4, h5, loadMonConfig, accessSecretData]

/-- C7 amended witness: a concrete creation run instantiates the
theorem. -/
theorem createPath_twoKeyGens_oneCreate_witness :
    CreateOrLoadClusterInfo emptyK8sState keyOracle "fsid0" "/var/lib/rook" "ns1" (some ()) =
      (Except.ok (⟨"ns1", "fsid0", "ABC", "ABC", [], ⟨"", ""⟩⟩, -1, emptyMapping),
       [StoreEvent.keyGen "mon." (genKeyringArgs ("/var/lib/rook" ++ "/" ++ "ns1") "mon." monCapArgs),
        StoreEvent.keyGen AdminUsername
          (genKeyringArgs ("/var/lib/rook" ++ "/" ++ "ns1") AdminUsername adminCapArgs),
        StoreEvent.createSecret AppName
          [(clusterSecretName, "ns1"), (fsidSecretName, "fsid0"),
           (monSecretName, "ABC"), (AdminSecretName, "ABC")]]) :=
  createPath_twoKeyGens_oneCreate emptyK8sState keyOracle "fsid0" "/var/lib/rook" "ns1" "ABC" "ABC"
    rfl (by decide) (by decide) rfl rfl

/-- C9: `ValidateAndLoadExternalClusterSecrets` treats NotFound on any
of the five lookups as success: when no lookup fails hard it returns
the credentials read off the operator secret — empty username and
empty secret when that secret is absent — with no error; conversely an
error is returned only when one of the five lookups fails with a
non-NotFound error. -/
theorem validateExternalSecrets_notFound_isSuccess
    (store : String → GetResult (List (String × String))) :
    ((∀ n ∈ externalSecretNames, (store n).isFailure = false) →
       ValidateAndLoadExternalClusterSecrets store =
           Except.ok (externalCredFrom (store OperatorCreds)) ∧
         (store OperatorCreds = GetResult.notFound →
           ValidateAndLoadExternalClusterSecrets store = Except.ok ⟨"", ""⟩)) ∧
    (∀ e, ValidateAndLoadExternalClusterSecrets store = Except.error e →
       ∃ n ∈ externalSecretNames, (store n).isFailure = true) := by
  constructor
  · intro h
    refine ⟨validateExternalSecrets_ok store h, ?_⟩
    intro hop
    rw [validateExternalSecrets_ok store h, hop]
    rfl
  · intro e he
    by_contra hno
    push_neg at hno
    simp only [Bool.not_eq_true] at hno
    rw [validateExternalSecrets_ok store hno] at he
    cases he

/-- C9 witness: the store where every lookup is NotFound yields the
empty credentials with no error. -/
theorem validateExternalSecrets_notFound_isSuccess_witness :
    ValidateAndLoadExternalClusterSecrets (fun _ => GetResult.notFound) = Except.ok ⟨"", ""⟩ :=
  ((validateExternalSecrets_notFound_isSuccess (fun _ => GetResult.notFound)).1 (by decide)).2 rfl

/-- C10: `ExtractKey` returns a (necessarily non-empty) secret exactly
when the keyring line matched by `"key"` has at least three
whitespace-separated fields and the third is non-empty; on every other
input it returns the error `failed to parse secret`, and it never
returns an empty secret with no error. -/
theorem extractKey_spec (contents : String) :
    ((3 ≤ (goFields (goGrep contents "key")).length ∧
        (goFields (goGrep contents "key")).getD 2 "" ≠ "") →
      ExtractKey contents = Except.ok ((goFields (goGrep contents "key")).getD 2 "")) ∧
    (¬(3 ≤ (goFields (goGrep contents "key")).length ∧
        (goFields (goGrep contents "key")).getD 2 "" ≠ "") →
      ExtractKey contents = Except.error "failed to parse secret") ∧
    (∀ s, ExtractKey contents = Except.ok s → s ≠ "") := by
  refine ⟨?_, ?_, ?_⟩
  · intro h
    have hsec : extractedSecret contents = (goFields (goGrep contents "key")).getD 2 "" := by
      unfold extractedSecret
      exact if_pos h.1
    unfold ExtractKey
    rw [hsec, if_neg h.2]
  · intro hn
    by_cases h1 : 3 ≤ (goFields (goGrep contents "key")).length
    · have h2 : (goFields (goGrep contents "key")).getD 2 "" = "" := by
        by_contra hne
        exact hn ⟨h1, hne⟩
      have hsec : extractedSecret contents = "" := by
        unfold extractedSecret
        rw [if_pos h1, h2]
      unfold ExtractKey
      rw [hsec, if_pos rfl]
    · have hsec : extractedSecret contents = "" := by
        unfold extractedSecret
        exact if_neg h1
      unfold ExtractKey
      rw [hsec, if_pos rfl]
  · intro s hs
    unfold ExtractKey at hs
    by_cases hz : extractedSecret contents = ""
    · rw [if_pos hz] at hs
      cases hs
    · rw [if_neg hz] at hs
      intro hcontra
      exact hz ((Except.ok.inj hs).trans hcontra)

/-- C10 witness: a concrete keyring instantiates the success case. -/
theorem extractKey_spec_witness :
    ExtractKey "[mon.]\n\tkey = AQBkey==\n" =
      Except.ok ((goFields (goGrep "[mon.]\n\tkey = AQBkey==\n" "key")).getD 2 "") :=
  (extractKey_spec "[mon.]\n\tkey = AQBkey==\n").1 (by decide)

/-- A cluster info whose stored admin secret equals the placeholder —
i.e. no admin-equivalent marker is present. -/
def noMarkerClusterInfo : ClusterInfo := ⟨"c1", "f1", "msecret", AdminSecretName, [], ⟨"", ""⟩⟩

/-- The external world for the no-marker counterexample: the load
succeeds and every secret lookup is NotFound (zero of the four
service-scoped credentials exist). -/
def noMarkerState : PopulateState := ⟨Except.ok noMarkerClusterInfo, fun _ => GetResult.notFound⟩

/-- A cluster info carrying an admin-equivalent marker (its stored
admin secret differs from the placeholder). -/
def adminMarkerClusterInfo : ClusterInfo := ⟨"c2", "f2", "msec", "actual-admin-key", [], ⟨"", ""⟩⟩

/-- The external world for the admin-marker witness. -/
def adminMarkerState : PopulateState := ⟨Except.ok adminMarkerClusterInfo, fun _ => GetResult.notFound⟩

/-- C4 counterexample: with no admin marker and zero of the four
service-scoped credentials present (every lookup NotFound), the loop
does not keep retrying — it returns at the very first poll, with empty
external credentials and zero seconds slept. -/
theorem populateExternal_noMarker_returns_cex :
    IsExternalHealthCheckUserAdmin noMarkerClusterInfo.AdminSecret = false ∧
    noMarkerState.secretStore CsiRBDNodeSecret = GetResult.notFound ∧
    noMarkerState.secretStore CsiRBDProvisionerSecret = GetResult.notFound ∧
    noMarkerState.secretStore CsiCephFSNodeSecret = GetResult.notFound ∧
    noMarkerState.secretStore CsiCephFSProvisionerSecret = GetResult.notFound ∧
    PopulateExternalClusterInfo (fun _ => noMarkerState) 1 =
      some ({ noMarkerClusterInfo with ExternalCred := ⟨"", ""⟩ }, 0) := by
  exact ⟨by decide, rfl, rfl, rfl, rfl, rfl⟩

/-- C4 amended: when the stored admin marker is present, the loop
returns on its first iteration, with the admin username and zero
sleeps; when no marker is present it also returns on the first
iteration whenever none of the five lookups fails hard — even with
fewer than four service credentials, yielding the (possibly empty)
operator credentials; it sleeps the fixed 60-second interval between
iterations only while an iteration fails (load error or hard lookup
failure). -/
theorem populateExternal_resolve :
    (∀ st ci, st.loadResult = Except.ok ci →
       IsExternalHealthCheckUserAdmin ci.AdminSecret = true →
       ∀ states fuel, states 0 = st →
         PopulateExternalClusterInfo states (fuel + 1) =
           some ({ ci with ExternalCred := ⟨AdminUsername, ci.AdminSecret⟩ }, 0)) ∧
    (∀ st ci, st.loadResult = Except.ok ci →
       IsExternalHealthCheckUserAdmin ci.AdminSecret = false →
       (∀ n ∈ externalSecretNames, (st.secretStore n).isFailure = false) →
       ∀ states fuel, states 0 = st →
         PopulateExternalClusterInfo states (fuel + 1) =
           some ({ ci with ExternalCred := externalCredFrom (st.secretStore OperatorCreds) }, 0)) ∧
    (∀ k states ci, (∀ i, i < k → populateStep (states i) = none) →
       populateStep (states k) = some ci →
       ∀ fuel, k < fuel →
         PopulateExternalClusterInfo states fuel =
           some (ci, k * externalConnectionRetrySeconds)) := by
  refine ⟨?_, ?_, ?_⟩
  · intro st ci hld hadm states fuel h0
    have hstep : populateStep st =
        some { ci with ExternalCred := ⟨AdminUsername, ci.AdminSecret⟩ } := by
      simp [populateStep, hld, hadm]
    simp [PopulateExternalClusterInfo, h0, hstep]
  · intro st ci hld hadm hnf states fuel h0
    have hv := validateExternalSecrets_ok st.secretStore hnf
    have hstep : populateStep st =
        some { ci with ExternalCred := externalCredFrom (st.secretStore OperatorCreds) } := by
      simp [populateStep, hld, hadm, hv]
    simp [PopulateExternalClusterInfo, h0, hstep]
  · intro k
    induction k with
    | zero =>
      intro states ci h0 hk fuel hfuel
      cases fuel with
      | zero => omega
      | succ f => simp [PopulateExternalClusterInfo, hk]
    | succ n ih =>
      intro states ci h0 hk fuel hfuel
      cases fuel with
      | zero => omega
      | succ f =>
        have hs0 : populateStep (states 0) = none := h0 0 (Nat.succ_pos n)
        have hrec := ih (fun i => states (i + 1)) ci (fun i hi => h0 (i + 1) (by omega)) hk f
          (by omega)
        simp [PopulateExternalClusterInfo, hs0, hrec, Nat.succ_mul]

/-- C4 amended witness: the admin-marker world instantiates the
immediate-return branch with zero sleeps. -/
theorem populateExternal_resolve_witness :
    PopulateExternalClusterInfo (fun _ => adminMarkerState) 3 =
      some ({ adminMarkerClusterInfo with
                ExternalCred := ⟨AdminUsername, adminMarkerClusterInfo.AdminSecret⟩ }, 0) :=
  populateExternal_resolve.1 adminMarkerState adminMarkerClusterInfo rfl (by decide)
    (fun _ => adminMarkerState) 2 rfl

/-- C8: the gate compares the platform version strings
lexicographically, which diverges from the numeric version ordering
the claim (and the gate's own log message, "CSI drivers only supported
in K8s 1.13 or newer") uses.  At Minor `"9"` — numerically below the
1.13 minimum, per the embedded `goAtoi` — the check does not fire and
the drivers stay enabled; at Minor `"100"` — numerically above the
minimum — it fires and clears both flags. -/
theorem csiVersionGate_stringCompare_bug :
    ((goAtoi "9").1 < (goAtoi KubeMinMinor).1 ∧
      csiDriversDisabledByVersion "1" "9" KubeMinMajor KubeMinMinor = false ∧
      updateDriversVersionGate ⟨true, true⟩ "1" "9" = ⟨true, true⟩) ∧
    ((goAtoi KubeMinMinor).1 ≤ (goAtoi "100").1 ∧
      csiDriversDisabledByVersion "1" "100" KubeMinMajor KubeMinMinor = true ∧
      updateDriversVersionGate ⟨true, true⟩ "1" "100" = ⟨false, false⟩) := by
  exact ⟨⟨by decide, by decide, by decide⟩, ⟨by decide, by decide, by decide⟩⟩

/-- The cluster identity of `TestGenerateConfigFile`. -/
def testClusterInfo : ClusterInfo :=
  ⟨"foo-cluster", "myfsid", "monsecret", "adminsecret", [⟨"mon0", "10.0.0.1:6789"⟩], ⟨"", ""⟩⟩

/-- The override document text of `TestGenerateConfigFile`. -/
def testOverrideText : String := "[global]\n    bluestore_min_alloc_size_hdd = 4096"

/-- The default document for the test identity. -/
def testDefaultDoc : IniDoc :=
  createDefaultCephConfig testClusterInfo "mon0" "[v2:10.0.0.1:3300,v1:10.0.0.1:6789]" 0

/-- C3: merging works at (section, key) granularity — with the default
document carrying `global.fsid = "myfsid"` and the override text
`[global]\n bluestore_min_alloc_size_hdd = 4096`, the rendered
document keeps `global.fsid == "myfsid"`, gains
`global.bluestore_min_alloc_size_hdd == "4096"`, and the render call
returns `<destinationDir>/<clusterName>.config`. -/
theorem generateConfigFile_mergePrecedence :
    iniGet testDefaultDoc "global" "fsid" = some "myfsid" ∧
    (generateConfigFile testDefaultDoc (some testOverrideText) "/var/lib/rook" "foo-cluster").1 =
      "/var/lib/rook/foo-cluster.config" ∧
    iniGet (generateConfigFile testDefaultDoc (some testOverrideText) "/var/lib/rook"
        "foo-cluster").2 "global" "fsid" = some "myfsid" ∧
    iniGet (generateConfigFile testDefaultDoc (some testOverrideText) "/var/lib/rook"
        "foo-cluster").2 "global" "bluestore_min_alloc_size_hdd" = some "4096" := by
  exact ⟨by decide, by decide, by decide, by decide⟩
